import Mathlib

/-!
Verification of `src/tools/create_medical_favicon.py`.

The Python module consists of a shebang line, two comment lines, and a single
module-level statement: `print(<triple-quoted string literal>)` (lines 5-26).
We embed the module shallowly:

* `favicon_text` is the triple-quoted string literal passed to `print`,
  byte-for-byte.  The literal opens immediately after `"""` with a line break
  and its last character is the line break before the closing `"""`.
* `program_output` is what `print` writes to standard output: the argument
  followed by `print`'s newline terminator.
* The module's executable statements are modelled as a list `module_stmts`
  of `PyStmt`; a small-step interpreter `step`/`exec` runs them, accumulating
  the standard-output text and a trace of observable `Effect`s.
* `run` is a whole-program run as a function of the `Invocation` (command-line
  arguments and environment); the source never reads either, which shows up as
  `run` not inspecting its argument.
* `run_with_write` models the fallible write to standard output: `print`
  performs a single write, and the module installs no handler, so an error
  from the write propagates unchanged.
-/

set_option maxRecDepth 20000

namespace CreateMedicalFavicon

/-- The triple-quoted string literal passed to `print` at lines 5-26 of
`src/tools/create_medical_favicon.py`, transcribed byte-for-byte (it opens
with a line break and closes with a line break; the line `5. Draw white
cross:` carries a trailing space in the source). -/
def favicon_text : String :=
  "\n" ++
  "Medical Favicon Design Specification:\n" ++
  "=====================================\n" ++
  "- Size: 32x32 pixels\n" ++
  "- Background: Medical blue (#2196F3) with rounded corners\n" ++
  "- Cross: White medical cross in center\n" ++
  "- Accent: Small semi-transparent white dots in corners\n" ++
  "- Style: Professional medical branding matching KP MED logo\n" ++
  "\n" ++
  "To manually create this favicon:\n" ++
  "1. Use any image editor (GIMP, Photoshop, Canva, etc.)\n" ++
  "2. Create 32x32px canvas\n" ++
  "3. Fill with blue color #2196F3\n" ++
  "4. Add rounded corners (6px radius)\n" ++
  "5. Draw white cross: \n" ++
  "   - Vertical: 3px wide, 14px tall, centered\n" ++
  "   - Horizontal: 14px wide, 3px tall, centered\n" ++
  "6. Add 4 small white dots (1px radius, 50% opacity) in corners\n" ++
  "7. Export as PNG\n" ++
  "\n" ++
  "The SVG version has already been created and configured!\n"

/-- What `print(favicon_text)` writes to standard output: the argument string
followed by `print`'s newline terminator (Python's default `end="\n"`). -/
def program_output : String := favicon_text ++ "\n"

/-- Executable Python statements occurring in the module.  The only statement
form present in the source is a call `print(s)` with a string literal
argument. -/
inductive PyStmt where
  | printCall (s : String)
deriving DecidableEq

/-- Observable side effects a statement of this module could make.  File
effects are in the vocabulary so that their absence from every run is a
statement about the program, not an artefact of the model. -/
inductive Effect where
  | writeStdout (s : String)
  | fileCreate (path : String)
  | fileModify (path : String)
  | fileDelete (path : String)
deriving DecidableEq

/-- The module's executable statements in order.  The shebang (line 1) and
the comments (lines 2-3) are not statements; the module body is the single
`print` call at lines 5-26. -/
def module_stmts : List PyStmt := [PyStmt.printCall favicon_text]

/-- Interpreter state: program counter into `module_stmts`, the text written
to standard output so far, and the trace of effects performed so far. -/
structure PyState where
  pc : Nat
  out : String
  trace : List Effect
deriving DecidableEq

/-- The initial state of a run: nothing executed, nothing written. -/
def init_state : PyState := { pc := 0, out := "", trace := [] }

/-- One small step of the module: execute the statement at the program
counter, or return `none` when the program counter has run past the last
statement (the module has terminated).  `print(s)` appends `s` plus a newline
to standard output and records the corresponding write effect. -/
def step (st : PyState) : Option PyState :=
  match module_stmts.get? st.pc with
  | some (PyStmt.printCall s) =>
      some { pc := st.pc + 1,
             out := st.out ++ (s ++ "\n"),
             trace := st.trace ++ [Effect.writeStdout (s ++ "\n")] }
  | none => none

/-- Run the interpreter for at most `n` steps, stopping early if the module
terminates. -/
def exec : Nat → PyState → PyState
  | 0, st => st
  | n + 1, st =>
      match step st with
      | some st2 => exec n st2
      | none => st

/-- The state in which a full run of the module ends: every statement of
`module_stmts` has been executed. -/
def final_state : PyState := exec module_stmts.length init_state

/-- An invocation of the program: its command-line arguments, its
environment, and the persisted state visible to it at start-up (a snapshot of
the file system, as a finite map from paths to contents).  The source reads
none of the three. -/
structure Invocation where
  args : List String
  env : List (String × String)
  fs : List (String × String)

/-- The observable outcome of a run: the bytes written to standard output and
the process exit status. -/
structure Outcome where
  stdout : String
  exitCode : Nat
deriving DecidableEq

/-- A whole run of the program on an invocation.  The module body never
inspects `sys.argv`, the environment, or any persisted state, so the outcome
is computed without looking at `inv`; a Python module that runs to completion
exits with status 0. -/
def run (_inv : Invocation) : Outcome :=
  { stdout := final_state.out, exitCode := 0 }

/-- The effect trace of a run of the program on an invocation (again
independent of `_inv`, as the source reads nothing from it). -/
def run_trace (_inv : Invocation) : List Effect := final_state.trace

/-- The program with the write to standard output made explicit and fallible:
`print` performs one write of `program_output`; if it succeeds the module
falls off the end and the process exits with status 0; if it fails, the
module installs no handler (there is no `try`/`except` in the source), so the
error propagates unchanged. -/
def run_with_write {ε : Type} (write : String → Except ε Unit) : Except ε Nat :=
  match write program_output with
  | Except.ok _ => Except.ok 0
  | Except.error e => Except.error e

/-- Boolean test that `pat` occurs at the head of `s`. -/
def starts_with : List Char → List Char → Bool
  | [], _ => true
  | _ :: _, [] => false
  | p :: ps, c :: cs => p == c && starts_with ps cs

/-- Boolean test that `pat` occurs as a contiguous substring of `s`. -/
def has_substr (pat : List Char) : List Char → Bool
  | [] => starts_with pat []
  | c :: cs => starts_with pat (c :: cs) || has_substr pat cs

/-- C1: for every invocation, the program writes to standard output exactly
the triple-quoted literal passed to `print` followed by `print`'s newline
terminator, byte-for-byte, and nothing else: the full small-step run of the
module produces a standard-output stream equal to `program_output` and its
effect trace contains no write besides it. -/
theorem stdout_is_exactly_the_literal (inv : Invocation) :
    (run inv).stdout = program_output ∧
    run inv = { stdout := favicon_text ++ "\n", exitCode := 0 } := by
  constructor
  · show final_state.out = program_output
    decide
  · show Outcome.mk final_state.out 0 = Outcome.mk (favicon_text ++ "\n") 0
    decide

/-- C2: whenever the single write to standard output succeeds, the program
terminates with exit status 0; under that precondition no nonzero status is
possible, as `run_with_write` returns `Except.ok 0`. -/
theorem exit_zero_when_write_succeeds {ε : Type} (write : String → Except ε Unit)
    (u : Unit) (h : write program_output = Except.ok u) :
    run_with_write write = Except.ok 0 := by
  unfold run_with_write
  rw [h]

/-- Witness for C2 at the concrete always-succeeding write. -/
theorem exit_zero_when_write_succeeds_witness :
    run_with_write (fun _ => (Except.ok () : Except Unit Unit)) = Except.ok 0 :=
  @exit_zero_when_write_succeeds Unit (fun _ => Except.ok ()) () rfl

/-- C3: the program is deterministic: any two invocations (any arguments,
any environment) produce the same standard-output bytes and the same exit
status. -/
theorem deterministic (inv1 inv2 : Invocation) : run inv1 = run inv2 := rfl

/-- C4: the only observable side effect of a run is the single write to
standard output: the effect trace of every invocation is exactly one
`writeStdout` and in particular contains no file creation, modification or
deletion. -/
theorem only_effect_is_the_stdout_write (inv : Invocation) :
    run_trace inv = [Effect.writeStdout program_output] := rfl

/-- C5: if the write to standard output fails, the program does not handle
the failure: the error returned by the write propagates unchanged out of the
run. -/
theorem write_failure_propagates_unhandled {ε : Type} (write : String → Except ε Unit)
    (e : ε) (h : write program_output = Except.error e) :
    run_with_write write = Except.error e := by
  unfold run_with_write
  rw [h]

/-- Witness for C5 at a concrete always-failing write. -/
theorem write_failure_propagates_unhandled_witness :
    run_with_write (fun _ => Except.error (37 : Nat)) = Except.error 37 :=
  @write_failure_propagates_unhandled Nat (fun _ => Except.error 37) 37 rfl

/-- C6: every run of the module terminates: after executing the
`module_stmts.length` statements of the module (a finite, synchronous
sequence of small steps), the interpreter is halted — no further step is
possible — with the program counter past the last statement. -/
theorem always_terminates :
    step final_state = none ∧ final_state.pc = module_stmts.length := by
  constructor <;> decide

/-- C7: the observable behaviour does not depend on command-line arguments,
environment variables, or persisted state: two invocations differing in any
or all of those three have identical outcomes (stdout bytes and exit status)
and identical effect traces. -/
theorem independent_of_args_env_and_state (a1 a2 : List String)
    (e1 e2 : List (String × String)) (f1 f2 : List (String × String)) :
    run ⟨a1, e1, f1⟩ = run ⟨a2, e2, f2⟩ ∧
    run_trace ⟨a1, e1, f1⟩ = run_trace ⟨a2, e2, f2⟩ :=
  ⟨rfl, rfl⟩

/-- C8: the emitted output begins with a single newline (its first character
is a line break and its second is the letter `M`, not a line break) and ends
with exactly two consecutive newlines (its last two characters are line
breaks and the one before them is `!`, not a line break). -/
theorem output_opens_one_newline_closes_two (inv : Invocation) :
    (run inv).stdout.data.take 2 = ['\n', 'M'] ∧
    (run inv).stdout.data.reverse.take 3 = ['\n', '\n', '!'] := by
  constructor
  · show final_state.out.data.take 2 = ['\n', 'M']
    decide
  · show final_state.out.data.reverse.take 3 = ['\n', '\n', '!']
    decide

/-- C9: the emitted output contains the dimension as the ASCII substring
`32x32` with the letter `x`, and the typographic form `32×32` with the
multiplication sign never appears in it. -/
theorem dimension_uses_ascii_x (inv : Invocation) :
    has_substr "32x32".data (run inv).stdout.data = true ∧
    has_substr "32×32".data (run inv).stdout.data = false := by
  constructor
  · show has_substr "32x32".data final_state.out.data = true
    decide
  · show has_substr "32×32".data final_state.out.data = false
    decide

end CreateMedicalFavicon
